import Mathlib

/-!
Verification of the risk-classification engine of the packaging-review
pipeline. The data model follows schemas.py (ClaimObject, Issue,
ExtractedBrief, ReviewDecision) and the classifier follows risk.py
(classify_risk and its four helper predicates). Python strings are
modelled as Lean strings; lowercasing and stripping act on the character
list; the substring test of the under-3 check is a recursive function on
character lists.
-/

/-- Severity levels: the closed enum Literal low, medium, high of schemas.py. -/
inductive Severity where
  | low
  | medium
  | high
  deriving DecidableEq

/-- One normalized marketing claim (schemas.py ClaimObject). The
normalized_type field stays an open string as in the source. -/
structure ClaimObject where
  raw_text : String
  normalized_type : String
  risk_keywords : List String
  evidence_hint : String
  severity : Severity
  deriving DecidableEq

/-- One issue found in the brief (schemas.py Issue). -/
structure Issue where
  type : String
  message : String
  severity : Severity
  deriving DecidableEq

/-- Structured brief (schemas.py ExtractedBrief). -/
structure ExtractedBrief where
  product_name : String
  age_grade : String
  markets : List String
  claims : List ClaimObject
  materials : List String
  licensed : Bool
  notes : Option String
  missing_info : List String
  clarifying_questions : List String
  issues : List Issue
  deriving DecidableEq

/-- Output of the risk step (schemas.py ReviewDecision). -/
structure ReviewDecision where
  requires_quality_review : Bool
  requires_legal_review : Bool
  requires_licensing_review : Bool
  requires_sustainability_review : Bool
  risk_flags : List String
  risk_level : String
  routing_notes : List String
  human_approval_required : Bool
  deriving DecidableEq

/-- risk.py MATERIAL_PLASTIC. -/
def MATERIAL_PLASTIC : List String := ["plastic", "pvc", "blister"]

/-- risk.py UNDER_3_INDICATORS. -/
def UNDER_3_INDICATORS : List String := ["0", "1", "2", "18m", "24m", "under 3", "under three"]

/-- risk.py LEGAL_CLAIM_TYPES. -/
def LEGAL_CLAIM_TYPES : List String :=
  ["CHEMICAL_SAFETY_CLAIM", "SUSTAINABILITY_CLAIM", "PERFORMANCE_CLAIM", "SAFETY_CLAIM"]

/-- Python str.lower applied to the characters of a string. -/
def pyLower (l : List Char) : List Char := l.map Char.toLower

/-- Python str.strip with no argument: drop leading and trailing whitespace. -/
def pyStrip (l : List Char) : List Char :=
  ((l.dropWhile Char.isWhitespace).reverse.dropWhile Char.isWhitespace).reverse

/-- Python substring test: needle in hay. -/
def strContains : (hay needle : List Char) → Bool
  | [], needle => needle.isEmpty
  | a :: rest, needle => needle.isPrefixOf (a :: rest) || strContains rest needle

/-- risk.py _age_under_3: lowercase and strip the age grade, then test each
under-3 indicator as a substring. -/
def age_under_3 (age_grade : String) : Bool :=
  UNDER_3_INDICATORS.any (fun x => strContains (pyStrip (pyLower age_grade.data)) x.data)

/-- risk.py _plastic_present: some material, lowercased and stripped, is
exactly one of the plastic-family strings. -/
def plastic_present (materials : List String) : Bool :=
  materials.any (fun m => (MATERIAL_PLASTIC.map String.data).contains (pyStrip (pyLower m.data)))

/-- risk.py _claims_need_evidence: some claim has a legal claim type or high
severity. The Python loop with early return is an existential scan. -/
def claims_need_evidence (claims : List ClaimObject) : Bool :=
  claims.any (fun c => LEGAL_CLAIM_TYPES.contains c.normalized_type || c.severity == Severity.high)

/-- risk.py _high_severity_issues: some issue has high severity. -/
def high_severity_issues (issues : List Issue) : Bool :=
  issues.any (fun i => i.severity == Severity.high)

/-- risk.py classify_risk: sequential rule evaluation rendered as
concatenation of conditional singleton lists, in the source order. -/
def classify_risk (brief : ExtractedBrief) : ReviewDecision :=
  let requires_quality_review := age_under_3 brief.age_grade
  let requires_licensing_review := brief.licensed
  let requires_legal_review := claims_need_evidence brief.claims
  let requires_sustainability_review := plastic_present brief.materials
  let issues_flag := !brief.issues.isEmpty && high_severity_issues brief.issues
  let risk_flags : List String :=
    (if requires_quality_review then ["under_3"] else []) ++
    (if requires_licensing_review then ["licensed_brand"] else []) ++
    (if requires_legal_review then ["claims_need_evidence"] else []) ++
    (if requires_sustainability_review then ["plastic_present"] else []) ++
    (if issues_flag then ["high_severity_issues"] else [])
  let routing_notes : List String :=
    (if requires_quality_review then ["Age grade under 3: quality review required."] else []) ++
    (if requires_licensing_review then ["Licensed product: licensing review required."] else []) ++
    (if requires_legal_review then ["Marketing claims require legal/evidence review."] else []) ++
    (if requires_sustainability_review then
      ["Plastic/PVC/blister: sustainability review recommended."] else []) ++
    (if issues_flag then ["High-severity issues from brief require attention."] else [])
  let human_approval_required :=
    risk_flags.contains "under_3" || risk_flags.contains "licensed_brand" ||
      risk_flags.contains "claims_need_evidence"
  let risk_level : String :=
    if risk_flags.contains "under_3" || risk_flags.contains "licensed_brand" then "high"
    else if risk_flags.length ≥ 1 then "medium"
    else "low"
  { requires_quality_review := requires_quality_review
    requires_legal_review := requires_legal_review
    requires_licensing_review := requires_licensing_review
    requires_sustainability_review := requires_sustainability_review
    risk_flags := risk_flags
    risk_level := risk_level
    routing_notes := routing_notes
    human_approval_required := human_approval_required }

/-- The decision of classify_risk as a function of the five step conditions
alone; the body is the body of classify_risk with the conditions abstracted. -/
def decisionOfConds (c1 c2 c3 c4 c5 : Bool) : ReviewDecision :=
  let risk_flags : List String :=
    (if c1 then ["under_3"] else []) ++
    (if c2 then ["licensed_brand"] else []) ++
    (if c3 then ["claims_need_evidence"] else []) ++
    (if c4 then ["plastic_present"] else []) ++
    (if c5 then ["high_severity_issues"] else [])
  let routing_notes : List String :=
    (if c1 then ["Age grade under 3: quality review required."] else []) ++
    (if c2 then ["Licensed product: licensing review required."] else []) ++
    (if c3 then ["Marketing claims require legal/evidence review."] else []) ++
    (if c4 then ["Plastic/PVC/blister: sustainability review recommended."] else []) ++
    (if c5 then ["High-severity issues from brief require attention."] else [])
  let human_approval_required :=
    risk_flags.contains "under_3" || risk_flags.contains "licensed_brand" ||
      risk_flags.contains "claims_need_evidence"
  let risk_level : String :=
    if risk_flags.contains "under_3" || risk_flags.contains "licensed_brand" then "high"
    else if risk_flags.length ≥ 1 then "medium"
    else "low"
  { requires_quality_review := c1
    requires_legal_review := c3
    requires_licensing_review := c2
    requires_sustainability_review := c4
    risk_flags := risk_flags
    risk_level := risk_level
    routing_notes := routing_notes
    human_approval_required := human_approval_required }

theorem classify_risk_eq (b : ExtractedBrief) :
    classify_risk b = decisionOfConds (age_under_3 b.age_grade) b.licensed
      (claims_need_evidence b.claims) (plastic_present b.materials)
      (!b.issues.isEmpty && high_severity_issues b.issues) := rfl

/-- The emptiness guard on issues in classify_risk is redundant. -/
theorem issues_guard_eq (l : List Issue) :
    (!l.isEmpty && high_severity_issues l) = high_severity_issues l := by
  cases l <;> simp [high_severity_issues]

example : age_under_3 "0-3" = true := by decide

example : age_under_3 "5+" = false := by decide

example : plastic_present ["plastics"] = false := by decide

example : plastic_present [" Plastic "] = true := by decide

/-- The evaluation order of the five flags. -/
def FLAG_ORDER : List String :=
  ["under_3", "licensed_brand", "claims_need_evidence", "plastic_present", "high_severity_issues"]

/-- The routing note classify_risk appends for each flag. -/
def noteFor : String → String
  | "under_3" => "Age grade under 3: quality review required."
  | "licensed_brand" => "Licensed product: licensing review required."
  | "claims_need_evidence" => "Marketing claims require legal/evidence review."
  | "plastic_present" => "Plastic/PVC/blister: sustainability review recommended."
  | "high_severity_issues" => "High-severity issues from brief require attention."
  | _ => ""

theorem age_under_3_iff (s : String) :
    age_under_3 s = true ↔
      ∃ x ∈ UNDER_3_INDICATORS, strContains (pyStrip (pyLower s.data)) x.data = true := by
  simp [age_under_3]

theorem plastic_present_iff (ms : List String) :
    plastic_present ms = true ↔
      ∃ m ∈ ms, pyStrip (pyLower m.data) ∈ MATERIAL_PLASTIC.map String.data := by
  simp [plastic_present]

theorem claims_need_evidence_iff (cs : List ClaimObject) :
    claims_need_evidence cs = true ↔
      ∃ c ∈ cs, c.normalized_type ∈ LEGAL_CLAIM_TYPES ∨ c.severity = Severity.high := by
  simp [claims_need_evidence]

theorem high_severity_issues_iff (l : List Issue) :
    high_severity_issues l = true ↔ ∃ i ∈ l, i.severity = Severity.high := by
  simp [high_severity_issues]

theorem mem_dropWhile_of_neg {α : Type} (p : α → Bool) {a : α} {l : List α}
    (hp : p a = false) (h : a ∈ l) : a ∈ l.dropWhile p := by
  have hsplit := List.takeWhile_append_dropWhile (p := p) (l := l)
  rw [← hsplit] at h
  rcases List.mem_append.mp h with h1 | h1
  · exact absurd (List.mem_takeWhile_imp h1) (by simp [hp])
  · exact h1

theorem mem_pyStrip {a : Char} {l : List Char}
    (hw : a.isWhitespace = false) (h : a ∈ l) : a ∈ pyStrip l := by
  unfold pyStrip
  rw [List.mem_reverse]
  apply mem_dropWhile_of_neg _ hw
  rw [List.mem_reverse]
  exact mem_dropWhile_of_neg _ hw h

theorem strContains_singleton {a : Char} {l : List Char} (h : a ∈ l) :
    strContains l [a] = true := by
  induction l with
  | nil => cases h
  | cons b rest ih =>
    rcases List.mem_cons.mp h with rfl | h2
    · simp [strContains, List.isPrefixOf]
    · simp [strContains, ih h2]

theorem dc_level (c1 c2 c3 c4 c5 : Bool) :
    ((decisionOfConds c1 c2 c3 c4 c5).risk_level = "high" ↔
      ("under_3" ∈ (decisionOfConds c1 c2 c3 c4 c5).risk_flags ∨
        "licensed_brand" ∈ (decisionOfConds c1 c2 c3 c4 c5).risk_flags)) ∧
    ((decisionOfConds c1 c2 c3 c4 c5).risk_level = "medium" ↔
      ("under_3" ∉ (decisionOfConds c1 c2 c3 c4 c5).risk_flags ∧
        "licensed_brand" ∉ (decisionOfConds c1 c2 c3 c4 c5).risk_flags ∧
        (decisionOfConds c1 c2 c3 c4 c5).risk_flags ≠ [])) ∧
    ((decisionOfConds c1 c2 c3 c4 c5).risk_level = "low" ↔
      (decisionOfConds c1 c2 c3 c4 c5).risk_flags = []) := by
  revert c1 c2 c3 c4 c5 ; decide

theorem dc_approval (c1 c2 c3 c4 c5 : Bool) :
    ((decisionOfConds c1 c2 c3 c4 c5).human_approval_required = true ↔
      ("under_3" ∈ (decisionOfConds c1 c2 c3 c4 c5).risk_flags ∨
        "licensed_brand" ∈ (decisionOfConds c1 c2 c3 c4 c5).risk_flags ∨
        "claims_need_evidence" ∈ (decisionOfConds c1 c2 c3 c4 c5).risk_flags)) ∧
    ((∀ f ∈ (decisionOfConds c1 c2 c3 c4 c5).risk_flags,
        f = "plastic_present" ∨ f = "high_severity_issues") →
      (decisionOfConds c1 c2 c3 c4 c5).human_approval_required = false) := by
  revert c1 c2 c3 c4 c5 ; decide

theorem dc_under3 (c1 c2 c3 c4 c5 : Bool) :
    ("under_3" ∈ (decisionOfConds c1 c2 c3 c4 c5).risk_flags ∧
      (decisionOfConds c1 c2 c3 c4 c5).requires_quality_review = true) ↔ c1 = true := by
  revert c1 c2 c3 c4 c5 ; decide

/-- C1: risk_level is high iff the under_3 or licensed_brand flag was raised;
otherwise medium iff at least one flag was raised; otherwise low. -/
theorem classify_risk_level_rule (b : ExtractedBrief) :
    ((classify_risk b).risk_level = "high" ↔
      ("under_3" ∈ (classify_risk b).risk_flags ∨
        "licensed_brand" ∈ (classify_risk b).risk_flags)) ∧
    ((classify_risk b).risk_level = "medium" ↔
      ("under_3" ∉ (classify_risk b).risk_flags ∧
        "licensed_brand" ∉ (classify_risk b).risk_flags ∧
        (classify_risk b).risk_flags ≠ [])) ∧
    ((classify_risk b).risk_level = "low" ↔ (classify_risk b).risk_flags = []) := by
  rw [classify_risk_eq]
  exact dc_level _ _ _ _ _

/-- C2: human_approval_required is true iff one of under_3, licensed_brand,
claims_need_evidence is among the flags; a brief whose only raised flags are
plastic_present or high_severity_issues gets human_approval_required false. -/
theorem classify_risk_approval_rule (b : ExtractedBrief) :
    ((classify_risk b).human_approval_required = true ↔
      ("under_3" ∈ (classify_risk b).risk_flags ∨
        "licensed_brand" ∈ (classify_risk b).risk_flags ∨
        "claims_need_evidence" ∈ (classify_risk b).risk_flags)) ∧
    ((∀ f ∈ (classify_risk b).risk_flags,
        f = "plastic_present" ∨ f = "high_severity_issues") →
      (classify_risk b).human_approval_required = false) := by
  rw [classify_risk_eq]
  exact dc_approval _ _ _ _ _

/-- Brief raising only the plastic_present and high_severity_issues flags. -/
def briefPlasticHigh : ExtractedBrief :=
  { product_name := "Sticker Pack", age_grade := "6+", markets := ["EU"], claims := [],
    materials := ["plastic"], licensed := false, notes := none, missing_info := [],
    clarifying_questions := [],
    issues := [{ type := "OTHER", message := "loose part", severity := Severity.high }] }

theorem classify_risk_approval_rule_witness :
    (classify_risk briefPlasticHigh).human_approval_required = false :=
  (classify_risk_approval_rule briefPlasticHigh).2 (by decide)

/-- C3: the under_3 flag and requires_quality_review are set iff the
lowercased stripped age grade contains one of the under-3 indicators as a
substring; age_grade "0-3", and any age_grade containing the digit 2,
raise the flag by the literal substring rule. -/
theorem classify_risk_under3_rule (b : ExtractedBrief) :
    (("under_3" ∈ (classify_risk b).risk_flags ∧
        (classify_risk b).requires_quality_review = true) ↔
      ∃ x ∈ UNDER_3_INDICATORS,
        strContains (pyStrip (pyLower b.age_grade.data)) x.data = true) ∧
    (b.age_grade = "0-3" → "under_3" ∈ (classify_risk b).risk_flags) ∧
    ('2' ∈ b.age_grade.data → "under_3" ∈ (classify_risk b).risk_flags) := by
  refine ⟨?_, ?_, ?_⟩
  · rw [classify_risk_eq]
    exact (dc_under3 _ _ _ _ _).trans (age_under_3_iff b.age_grade)
  · intro h03
    have hc : age_under_3 b.age_grade = true := by rw [h03] ; decide
    rw [classify_risk_eq]
    exact ((dc_under3 _ _ _ _ _).mpr hc).1
  · intro h2
    have hmem : '2' ∈ pyLower b.age_grade.data := by
      unfold pyLower
      exact List.mem_map.mpr ⟨'2', h2, by decide⟩
    have hc : age_under_3 b.age_grade = true := by
      refine (age_under_3_iff b.age_grade).mpr ⟨"2", by decide, ?_⟩
      exact strContains_singleton (mem_pyStrip (by decide) hmem)
    rw [classify_risk_eq]
    exact ((dc_under3 _ _ _ _ _).mpr hc).1

/-- Brief whose age grade is exactly the string 0-3. -/
def briefAge03 : ExtractedBrief :=
  { product_name := "Soft Blocks", age_grade := "0-3", markets := [], claims := [],
    materials := [], licensed := false, notes := none, missing_info := [],
    clarifying_questions := [], issues := [] }

/-- Brief whose age grade contains the digit 2 inside unrelated text. -/
def briefAge12 : ExtractedBrief :=
  { product_name := "Race Car", age_grade := "ages 12 and up", markets := [], claims := [],
    materials := [], licensed := false, notes := none, missing_info := [],
    clarifying_questions := [], issues := [] }

theorem classify_risk_under3_rule_witness :
    "under_3" ∈ (classify_risk briefAge03).risk_flags ∧
    "under_3" ∈ (classify_risk briefAge12).risk_flags :=
  ⟨(classify_risk_under3_rule briefAge03).2.1 rfl,
   (classify_risk_under3_rule briefAge12).2.2 (by decide)⟩

theorem dc_mem_claims (c1 c2 c3 c4 c5 : Bool) :
    "claims_need_evidence" ∈ (decisionOfConds c1 c2 c3 c4 c5).risk_flags ↔ c3 = true := by
  revert c1 c2 c3 c4 c5 ; decide

theorem dc_mem_plastic (c1 c2 c3 c4 c5 : Bool) :
    "plastic_present" ∈ (decisionOfConds c1 c2 c3 c4 c5).risk_flags ↔ c4 = true := by
  revert c1 c2 c3 c4 c5 ; decide

theorem dc_mem_high (c1 c2 c3 c4 c5 : Bool) :
    "high_severity_issues" ∈ (decisionOfConds c1 c2 c3 c4 c5).risk_flags ↔ c5 = true := by
  revert c1 c2 c3 c4 c5 ; decide

theorem dc_claims (c1 c2 c3 c4 c5 : Bool) :
    ("claims_need_evidence" ∈ (decisionOfConds c1 c2 c3 c4 c5).risk_flags ∧
      (decisionOfConds c1 c2 c3 c4 c5).requires_legal_review = true) ↔ c3 = true := by
  revert c1 c2 c3 c4 c5 ; decide

/-- C4: the claims_need_evidence flag and requires_legal_review are set iff
some claim has a legal claim type or high severity; a claim with an
unrecognized type and non-high severity never triggers the step. -/
theorem classify_risk_claims_rule (b : ExtractedBrief) :
    (("claims_need_evidence" ∈ (classify_risk b).risk_flags ∧
        (classify_risk b).requires_legal_review = true) ↔
      ∃ c ∈ b.claims, c.normalized_type ∈ LEGAL_CLAIM_TYPES ∨ c.severity = Severity.high) ∧
    ((∀ c ∈ b.claims, c.normalized_type ∉ LEGAL_CLAIM_TYPES ∧ c.severity ≠ Severity.high) →
      "claims_need_evidence" ∉ (classify_risk b).risk_flags) := by
  constructor
  · rw [classify_risk_eq]
    exact (dc_claims _ _ _ _ _).trans (claims_need_evidence_iff b.claims)
  · intro hnone hmem
    rw [classify_risk_eq] at hmem
    have hc : claims_need_evidence b.claims = true := (dc_mem_claims _ _ _ _ _).mp hmem
    obtain ⟨c, hcm, hor⟩ := (claims_need_evidence_iff b.claims).mp hc
    rcases hor with h | h
    · exact (hnone c hcm).1 h
    · exact (hnone c hcm).2 h

/-- Brief whose single claim has an unrecognized type and low severity. -/
def briefOddClaim : ExtractedBrief :=
  { product_name := "Puzzle", age_grade := "8+", markets := [], claims :=
      [{ raw_text := "award winning", normalized_type := "AWARD_CLAIM",
         risk_keywords := [], evidence_hint := "", severity := Severity.low }],
    materials := [], licensed := false, notes := none, missing_info := [],
    clarifying_questions := [], issues := [] }

theorem classify_risk_claims_rule_witness :
    "claims_need_evidence" ∉ (classify_risk briefOddClaim).risk_flags :=
  (classify_risk_claims_rule briefOddClaim).2 (by decide)

theorem dc_plastic (c1 c2 c3 c4 c5 : Bool) :
    ("plastic_present" ∈ (decisionOfConds c1 c2 c3 c4 c5).risk_flags ∧
      (decisionOfConds c1 c2 c3 c4 c5).requires_sustainability_review = true) ↔ c4 = true := by
  revert c1 c2 c3 c4 c5 ; decide

/-- C5: the plastic_present flag and requires_sustainability_review are set
iff some material, lowercased and stripped, equals exactly plastic, pvc or
blister; the string plastics does not match. -/
theorem classify_risk_plastic_rule (b : ExtractedBrief) :
    (("plastic_present" ∈ (classify_risk b).risk_flags ∧
        (classify_risk b).requires_sustainability_review = true) ↔
      ∃ m ∈ b.materials, pyStrip (pyLower m.data) ∈ MATERIAL_PLASTIC.map String.data) ∧
    (b.materials = ["plastics"] → "plastic_present" ∉ (classify_risk b).risk_flags) := by
  constructor
  · rw [classify_risk_eq]
    exact (dc_plastic _ _ _ _ _).trans (plastic_present_iff b.materials)
  · intro hms hmem
    have hfalse : plastic_present b.materials = false := by rw [hms] ; decide
    rw [classify_risk_eq] at hmem
    have : plastic_present b.materials = true := (dc_mem_plastic _ _ _ _ _).mp hmem
    rw [hfalse] at this
    exact absurd this (by decide)

/-- Brief whose only material is the non-matching string plastics. -/
def briefPlastics : ExtractedBrief :=
  { product_name := "Doll", age_grade := "9+", markets := [], claims := [],
    materials := ["plastics"], licensed := false, notes := none, missing_info := [],
    clarifying_questions := [], issues := [] }

theorem classify_risk_plastic_rule_witness :
    "plastic_present" ∉ (classify_risk briefPlastics).risk_flags :=
  (classify_risk_plastic_rule briefPlastics).2 rfl

theorem dc_only_high (c1 c2 c3 c4 c5 : Bool) :
    (decisionOfConds c1 c2 c3 c4 c5).risk_flags = ["high_severity_issues"] →
      (decisionOfConds c1 c2 c3 c4 c5).requires_quality_review = false ∧
      (decisionOfConds c1 c2 c3 c4 c5).requires_legal_review = false ∧
      (decisionOfConds c1 c2 c3 c4 c5).requires_licensing_review = false ∧
      (decisionOfConds c1 c2 c3 c4 c5).requires_sustainability_review = false ∧
      (decisionOfConds c1 c2 c3 c4 c5).human_approval_required = false ∧
      (decisionOfConds c1 c2 c3 c4 c5).risk_level = "medium" := by
  revert c1 c2 c3 c4 c5 ; decide

/-- C6: the high_severity_issues flag is raised iff some issue has high
severity; the step sets no review boolean, so a brief whose only flag is
high_severity_issues has all four review booleans false, no human approval,
and medium risk. -/
theorem classify_risk_high_issue_rule (b : ExtractedBrief) :
    ("high_severity_issues" ∈ (classify_risk b).risk_flags ↔
      ∃ i ∈ b.issues, i.severity = Severity.high) ∧
    ((classify_risk b).risk_flags = ["high_severity_issues"] →
      (classify_risk b).requires_quality_review = false ∧
      (classify_risk b).requires_legal_review = false ∧
      (classify_risk b).requires_licensing_review = false ∧
      (classify_risk b).requires_sustainability_review = false ∧
      (classify_risk b).human_approval_required = false ∧
      (classify_risk b).risk_level = "medium") := by
  constructor
  · rw [classify_risk_eq]
    refine (dc_mem_high _ _ _ _ _).trans ?_
    rw [issues_guard_eq]
    exact high_severity_issues_iff b.issues
  · rw [classify_risk_eq]
    exact dc_only_high _ _ _ _ _

/-- Brief whose only raised flag is high_severity_issues. -/
def briefHighIssueOnly : ExtractedBrief :=
  { product_name := "Kite", age_grade := "8+", markets := [], claims := [],
    materials := ["cardboard"], licensed := false, notes := none, missing_info := [],
    clarifying_questions := [],
    issues := [{ type := "MISSING_INFO", message := "no age grade on box",
                 severity := Severity.high }] }

theorem classify_risk_high_issue_rule_witness :
    (classify_risk briefHighIssueOnly).requires_quality_review = false ∧
    (classify_risk briefHighIssueOnly).requires_legal_review = false ∧
    (classify_risk briefHighIssueOnly).requires_licensing_review = false ∧
    (classify_risk briefHighIssueOnly).requires_sustainability_review = false ∧
    (classify_risk briefHighIssueOnly).human_approval_required = false ∧
    (classify_risk briefHighIssueOnly).risk_level = "medium" :=
  (classify_risk_high_issue_rule briefHighIssueOnly).2 (by decide)

/-- C7: with no under-3 indicator, not licensed, no claim needing evidence,
no plastic-family material and no high-severity issue, the decision is low
risk with all review booleans false, no approval, and empty flag and note
lists. -/
theorem classify_risk_all_clear (b : ExtractedBrief)
    (h1 : ∀ x ∈ UNDER_3_INDICATORS,
      strContains (pyStrip (pyLower b.age_grade.data)) x.data = false)
    (h2 : b.licensed = false)
    (h3 : ∀ c ∈ b.claims, c.normalized_type ∉ LEGAL_CLAIM_TYPES ∧ c.severity ≠ Severity.high)
    (h4 : ∀ m ∈ b.materials, pyStrip (pyLower m.data) ∉ MATERIAL_PLASTIC.map String.data)
    (h5 : ∀ i ∈ b.issues, i.severity ≠ Severity.high) :
    classify_risk b =
      { requires_quality_review := false, requires_legal_review := false,
        requires_licensing_review := false, requires_sustainability_review := false,
        risk_flags := [], risk_level := "low", routing_notes := [],
        human_approval_required := false } := by
  have hc1 : age_under_3 b.age_grade = false := by
    rw [Bool.eq_false_iff]
    intro hT
    obtain ⟨x, hx, hsub⟩ := (age_under_3_iff b.age_grade).mp hT
    rw [h1 x hx] at hsub
    exact absurd hsub (by decide)
  have hc3 : claims_need_evidence b.claims = false := by
    rw [Bool.eq_false_iff]
    intro hT
    obtain ⟨c, hc, hor⟩ := (claims_need_evidence_iff b.claims).mp hT
    rcases hor with h | h
    · exact (h3 c hc).1 h
    · exact (h3 c hc).2 h
  have hc4 : plastic_present b.materials = false := by
    rw [Bool.eq_false_iff]
    intro hT
    obtain ⟨m, hm, hin⟩ := (plastic_present_iff b.materials).mp hT
    exact h4 m hm hin
  have hc5 : high_severity_issues b.issues = false := by
    rw [Bool.eq_false_iff]
    intro hT
    obtain ⟨i, hi, hs⟩ := (high_severity_issues_iff b.issues).mp hT
    exact h5 i hi hs
  rw [classify_risk_eq, issues_guard_eq, hc1, h2, hc3, hc4, hc5]
  decide

/-- Scenario-B-like brief: nothing matches any rule. -/
def briefClear : ExtractedBrief :=
  { product_name := "Board Game", age_grade := "5+", markets := ["US"], claims :=
      [{ raw_text := "fun for the family", normalized_type := "OTHER_CLAIM",
         risk_keywords := [], evidence_hint := "", severity := Severity.low }],
    materials := ["cardboard"], licensed := false, notes := none, missing_info := [],
    clarifying_questions := [],
    issues := [{ type := "OTHER", message := "minor", severity := Severity.low }] }

theorem classify_risk_all_clear_witness :
    classify_risk briefClear =
      { requires_quality_review := false, requires_legal_review := false,
        requires_licensing_review := false, requires_sustainability_review := false,
        risk_flags := [], risk_level := "low", routing_notes := [],
        human_approval_required := false } :=
  classify_risk_all_clear briefClear (by decide) rfl (by decide) (by decide) (by decide)

/-- C8: classify_risk is deterministic; on equal inputs the decisions agree
as wholes, so the flags, notes, level and booleans all agree. -/
theorem classify_risk_deterministic (b1 b2 : ExtractedBrief) (h : b1 = b2) :
    classify_risk b1 = classify_risk b2 ∧
    (classify_risk b1).risk_flags = (classify_risk b2).risk_flags ∧
    (classify_risk b1).routing_notes = (classify_risk b2).routing_notes ∧
    (classify_risk b1).risk_level = (classify_risk b2).risk_level ∧
    (classify_risk b1).requires_quality_review = (classify_risk b2).requires_quality_review ∧
    (classify_risk b1).requires_legal_review = (classify_risk b2).requires_legal_review ∧
    (classify_risk b1).requires_licensing_review = (classify_risk b2).requires_licensing_review ∧
    (classify_risk b1).requires_sustainability_review =
      (classify_risk b2).requires_sustainability_review ∧
    (classify_risk b1).human_approval_required = (classify_risk b2).human_approval_required := by
  subst h
  exact ⟨rfl, rfl, rfl, rfl, rfl, rfl, rfl, rfl, rfl⟩

theorem classify_risk_deterministic_witness :
    classify_risk briefClear = classify_risk briefClear :=
  (classify_risk_deterministic briefClear briefClear rfl).1

theorem dc_level_wf (c1 c2 c3 c4 c5 : Bool) :
    (decisionOfConds c1 c2 c3 c4 c5).risk_level = "low" ∨
    (decisionOfConds c1 c2 c3 c4 c5).risk_level = "medium" ∨
    (decisionOfConds c1 c2 c3 c4 c5).risk_level = "high" := by
  revert c1 c2 c3 c4 c5 ; decide

/-- Brief with every optional field empty. -/
def emptyBrief : ExtractedBrief :=
  { product_name := "", age_grade := "", markets := [], claims := [],
    materials := [], licensed := false, notes := none, missing_info := [],
    clarifying_questions := [], issues := [] }

/-- C9: classify_risk is total: every brief gets a complete decision with a
valid risk level, and the all-empty brief yields the low-risk decision with
no flags rather than an error. -/
theorem classify_risk_total :
    (∀ b : ExtractedBrief,
      (classify_risk b).risk_level = "low" ∨
      (classify_risk b).risk_level = "medium" ∨
      (classify_risk b).risk_level = "high") ∧
    classify_risk emptyBrief =
      { requires_quality_review := false, requires_legal_review := false,
        requires_licensing_review := false, requires_sustainability_review := false,
        risk_flags := [], risk_level := "low", routing_notes := [],
        human_approval_required := false } := by
  constructor
  · intro b
    rw [classify_risk_eq]
    exact dc_level_wf _ _ _ _ _
  · decide

theorem dc_flags_inv (c1 c2 c3 c4 c5 : Bool) :
    (decisionOfConds c1 c2 c3 c4 c5).risk_flags.Nodup ∧
    List.Sublist (decisionOfConds c1 c2 c3 c4 c5).risk_flags FLAG_ORDER ∧
    (decisionOfConds c1 c2 c3 c4 c5).routing_notes =
      (decisionOfConds c1 c2 c3 c4 c5).risk_flags.map noteFor ∧
    (decisionOfConds c1 c2 c3 c4 c5).routing_notes.length =
      (decisionOfConds c1 c2 c3 c4 c5).risk_flags.length := by
  revert c1 c2 c3 c4 c5 ; decide

/-- C10: the flags are duplicate-free, form a subsequence of the evaluation
order, and the routing notes are exactly the per-flag notes in matching
order, so the two lists have equal length. -/
theorem classify_risk_flags_invariant (b : ExtractedBrief) :
    (classify_risk b).risk_flags.Nodup ∧
    List.Sublist (classify_risk b).risk_flags FLAG_ORDER ∧
    (classify_risk b).routing_notes = (classify_risk b).risk_flags.map noteFor ∧
    (classify_risk b).routing_notes.length = (classify_risk b).risk_flags.length := by
  rw [classify_risk_eq]
  exact dc_flags_inv _ _ _ _ _
